import Mathlib

/-!
# Verification of the ecoTrip hotel-booking core

Shallow embedding of `src/services/booking.ts` (the authoritative, most
recent revision: the one whose `getCityCode` queries
`/v1/reference-data/locations/cities` and whose `searchHotels` caps results
at 20), together with proofs about its behaviour.

Modelling conventions:
* JavaScript values that the source checks for truthiness are embedded as
  `Option String` / `Option Bool`; `strTruthy` mirrors the fact that both
  `undefined`/`null` and the empty string are falsy.
* Machine numbers are embedded as `Int` (timestamps in milliseconds, as
  produced by `Date.now()`) and `ℚ` (prices, ratings).
* Each network interaction is represented by a response value supplied in an
  environment record; functions return, besides their result, the updated
  module-level token cache and the number of network requests issued.
* `throw`n JavaScript errors are embedded as `Except` error values carrying a
  structured constructor per `throw` site; the source's later string surgery
  on `error.message` (which only reformats the user-facing text and never
  turns an error into a success or vice versa) is not re-modelled.
* `Math.random()` draws are passed in as explicit parameters (`q : ℚ` for the
  fallback-rating draw, a `String` tag for generated identifiers).
-/

namespace EcoTrip

/-- JS truthiness of an optional string: `undefined`/`null` and `""` are
falsy, every other string is truthy. -/
def strTruthy : Option String → Bool
  | none => false
  | some s => s ≠ ""

/-- JS truthiness of an optional boolean (`undefined` is falsy). -/
def boolTruthy : Option Bool → Bool
  | none => false
  | some b => b

/-- JS `a || b` on an optional string `a`: the default is used when `a` is
`undefined`/`null` or the empty string. -/
def jsOrStr (a : Option String) (b : String) : String :=
  match a with
  | none => b
  | some s => if s = "" then b else s

/-- ASCII whitespace recognised by the model for JS `\s` and `parseInt`
skipping (space, tab, newline, carriage return, form feed, vertical tab;
Unicode spaces are out of scope). -/
def isJsSpace (c : Char) : Bool :=
  c == ' ' || c == '\t' || c == '\n' || c == '\r' || c == '\x0c' || c == '\x0b'

/-- JS `toUpperCase` restricted to ASCII (the provider's city names and
IATA keywords in scope are ASCII; `Char.toUpper` upcases exactly the ASCII
range). -/
def jsToUpper (s : String) : String :=
  ⟨s.data.map Char.toUpper⟩

/-- Numeric value of a digit string (most significant digit first). -/
def digitsVal (ds : List Char) : Nat :=
  ds.foldl (fun acc c => acc * 10 + (c.toNat - '0'.toNat)) 0

/-- JS `parseInt(s, 10)`: skip leading whitespace, optional sign, then the
longest digit prefix; `none` models `NaN` (no digits found). -/
def jsParseInt (s : String) : Option Int :=
  let cs := s.data.dropWhile isJsSpace
  let signAndRest : Int × List Char :=
    match cs with
    | '-' :: rest => (-1, rest)
    | '+' :: rest => (1, rest)
    | _ => (1, cs)
  let ds := signAndRest.2.takeWhile Char.isDigit
  if ds.isEmpty then none else some (signAndRest.1 * (digitsVal ds : Int))

/-- JS `parseFloat(s)`: skip leading whitespace, optional sign, digits,
optional `.` and fraction digits; `none` models `NaN`. Exponent forms are
out of scope (the provider's price strings are plain decimals). -/
def jsParseFloat (s : String) : Option ℚ :=
  let cs := s.data.dropWhile isJsSpace
  let signAndRest : ℚ × List Char :=
    match cs with
    | '-' :: rest => (-1, rest)
    | '+' :: rest => (1, rest)
    | _ => (1, cs)
  let intds := signAndRest.2.takeWhile Char.isDigit
  let rest := signAndRest.2.dropWhile Char.isDigit
  let fracds :=
    match rest with
    | '.' :: r => r.takeWhile Char.isDigit
    | _ => []
  if intds.isEmpty && fracds.isEmpty then none
  else
    some (signAndRest.1 *
      ((digitsVal intds : ℚ) + (digitsVal fracds : ℚ) / ((10 : ℚ) ^ fracds.length)))

/-! ## TokenManager (`getAmadeusAccessToken`, booking.ts lines 71–141) -/

/-- The module-level token cache entry `{ token, expiry }` (expiry is a
`Date.now()`-style millisecond timestamp). -/
structure CachedToken where
  token : String
  expiry : Int
deriving DecidableEq

/-- Outcome of the provider's OAuth2 token request as observed by the code:
transport failure, non-2xx response, or a granted token with its
`expires_in` lifetime in seconds. -/
inductive TokenResponse
  | netError
  | httpError (status : Nat) (body : String)
  | ok (access_token : String) (expires_in : Int)
deriving DecidableEq

/-- Classification of a failed `getAmadeusAccessToken` call (the structured
content behind the `throw`n error messages of lines 88–139). -/
inductive TokenError
  | configError
  | authFailed (status : Nat) (body : String)
  | network
deriving DecidableEq

/-- Environment for the token manager: configured credentials and the
provider's response to a (hypothetical) token request. -/
structure TokenEnv where
  apiKey : Option String
  apiSecret : Option String
  tokenResp : TokenResponse

/-- The token-request part of `getAmadeusAccessToken` (everything after the
cache check): credential check, POST to the token endpoint, cache update
`expiryTime = now + expires_in * 1000 - 60000`. Returns
(result, new cache content, number of network requests issued). -/
def requestAmadeusToken (env : TokenEnv) (now : Int) (old : Option CachedToken) :
    Except TokenError String × Option CachedToken × Nat :=
  if !strTruthy env.apiKey || !strTruthy env.apiSecret then
    (.error .configError, old, 0)
  else
    match env.tokenResp with
    | .netError => (.error .network, old, 1)
    | .httpError status body => (.error (.authFailed status body), old, 1)
    | .ok tok lifetime =>
        (.ok tok, some ⟨tok, now + lifetime * 1000 - 60000⟩, 1)

/-- `getAmadeusAccessToken`: return the cached token while
`cachedToken.expiry > now`, otherwise request a fresh one. -/
def getAmadeusAccessToken (env : TokenEnv) (now : Int) (cachedToken : Option CachedToken) :
    Except TokenError String × Option CachedToken × Nat :=
  match cachedToken with
  | some c =>
      if now < c.expiry then (.ok c.token, some c, 0)
      else requestAmadeusToken env now (some c)
  | none => requestAmadeusToken env now none

/-! ## LocationResolver (`getCityCode`, booking.ts lines 150–195) -/

/-- One location candidate from the provider's city-lookup response (the
fields `getCityCode` reads; the response is duck-typed JSON, so every field
may be absent). -/
structure AmadeusLocation where
  subType : String
  name : Option String
  iataCode : Option String
deriving DecidableEq

/-- Outcome of the city-lookup GET as observed by the code. -/
inductive LocationsResponse
  | netError
  | httpError (status : Nat) (body : String)
  | ok (data : List AmadeusLocation)
deriving DecidableEq

/-- `getCityCode`: exact case-insensitive CITY match with a truthy
`iataCode` first, then the first CITY candidate with a truthy `iataCode`,
otherwise `null`; transport failures and non-2xx responses are absorbed and
yield `null` (the function never throws — its return type is already the
total `Option String`). -/
def getCityCode (cityName : String) (resp : LocationsResponse) : Option String :=
  match resp with
  | .netError => none
  | .httpError _ _ => none
  | .ok data =>
      if data.length > 0 then
        let exactMatch := data.find? fun loc =>
          loc.subType == "CITY" && strTruthy loc.iataCode &&
            loc.name.map jsToUpper == some (jsToUpper cityName)
        match exactMatch with
        | some loc => loc.iataCode
        | none =>
            let firstCityMatch := data.find? fun loc =>
              loc.subType == "CITY" && strTruthy loc.iataCode
            match firstCityMatch with
            | some loc => loc.iataCode
            | none => none
      else none

/-- Modelled from the spec (§4.2 LocationResolver), for comparison with the
code: the spec's claimed matching policy — (1) exact case-insensitive name
match with a non-empty code regardless of kind, (2) first `CITY` candidate
with a non-empty code, (3) first candidate of any kind with a non-empty
code, (4) `nil`. -/
def resolveSpecPolicy (cityName : String) (data : List AmadeusLocation) : Option String :=
  match data.find? fun loc =>
      strTruthy loc.iataCode && loc.name.map jsToUpper == some (jsToUpper cityName) with
  | some loc => loc.iataCode
  | none =>
      match data.find? fun loc => loc.subType == "CITY" && strTruthy loc.iataCode with
      | some loc => loc.iataCode
      | none =>
          match data.find? fun loc => strTruthy loc.iataCode with
          | some loc => loc.iataCode
          | none => none

/-- The policy `getCityCode` actually implements, stated independently of
the code's control flow: only `CITY`-kind candidates are ever consulted —
exact case-insensitive CITY match with a truthy code first, else the first
CITY candidate with a truthy code, else `null`. -/
def cityOnlyPolicy (cityName : String) (data : List AmadeusLocation) : Option String :=
  match data.find? fun loc =>
      loc.subType == "CITY" && strTruthy loc.iataCode &&
        loc.name.map jsToUpper == some (jsToUpper cityName) with
  | some loc => loc.iataCode
  | none =>
      match data.find? fun loc => loc.subType == "CITY" && strTruthy loc.iataCode with
      | some loc => loc.iataCode
      | none => none

/-! ## Application data model (`src/types/index.ts`) -/

/-- The normalized `Hotel` shape produced by `transformAmadeusHotelOffer`.
`pricePerNight` holds the whole-stay total taken from the provider's first
nested offer (see the source comment on line 58). -/
structure Hotel where
  id : String
  name : String
  address : String
  city : String
  pricePerNight : ℚ
  imageUrl : String
  rating : ℚ
  amenities : List String
  latitude : Option ℚ
  longitude : Option ℚ
  description : String
  currency : String
deriving DecidableEq

/-- The `Trip` record created by `simulateBookHotel` (dates are
`Date.now()`-style millisecond timestamps). -/
structure Trip where
  id : String
  hotel : Hotel
  checkInDate : Int
  checkOutDate : Int
  numberOfGuests : Int
  totalPrice : ℚ
  status : String
deriving DecidableEq

/-- A raw trip row as read back from the `ecoTrips` localStorage key:
duck-typed JSON, so the hotel and the dates may be absent. -/
structure StoredTrip where
  id : String
  hotel : Option Hotel
  checkInDate : Option Int
  checkOutDate : Option Int
  numberOfGuests : Int
  totalPrice : ℚ
  status : String
deriving DecidableEq

/-- `PaymentDetails` from `src/types/index.ts`. -/
structure PaymentDetails where
  method : String
  cardNumber : Option String
  expiryDate : Option String
  cvc : Option String
  paypalEmail : Option String
deriving DecidableEq

/-! ## SimulateBooking (`simulateBookHotel`, booking.ts lines 501–546) -/

/-- The card-number pattern `/^\d{16}$/`. -/
def cardNumberPattern (s : String) : Bool :=
  s.length == 16 && s.data.all Char.isDigit

/-- The expiry pattern `/^(0[1-9]|1[0-2])\/\d{2}$/`. -/
def expiryPattern (s : String) : Bool :=
  match s.data with
  | [a, b, sl, c, d] =>
      ((a == '0' && b.isDigit && b != '0') ||
        (a == '1' && (b == '0' || b == '1' || b == '2'))) &&
      sl == '/' && c.isDigit && d.isDigit
  | _ => false

/-- The CVC pattern `/^\d{3,4}$/`. -/
def cvcPattern (s : String) : Bool :=
  (s.length == 3 || s.length == 4) && s.data.all Char.isDigit

/-- The email pattern `/^[^\s@]+@[^\s@]+\.[^\s@]+$/`: exactly one `@`, a
non-empty whitespace-free local part, and a whitespace-free remainder that
contains a `.` at an interior position (so that both the part before some
dot and the part after it are non-empty). -/
def emailPattern (s : String) : Bool :=
  let cs := s.data
  let localPart := cs.takeWhile fun c => c != '@'
  let rest := (cs.dropWhile fun c => c != '@').drop 1
  cs.count '@' == 1 &&
  !localPart.isEmpty && localPart.all (fun c => !isJsSpace c) &&
  !rest.isEmpty && rest.all (fun c => !isJsSpace c) &&
  ((rest.drop 1).dropLast.contains '.')

/-- The payment-shape validation of `simulateBookHotel`: card methods check
card number, expiry and CVC patterns (each field also checked for
truthiness first); the wallet method checks the email pattern; any other
method is invalid. -/
def paymentValid (p : PaymentDetails) : Bool :=
  if p.method == "creditCard" || p.method == "debitCard" then
    strTruthy p.cardNumber && cardNumberPattern (p.cardNumber.getD "") &&
    strTruthy p.expiryDate && expiryPattern (p.expiryDate.getD "") &&
    strTruthy p.cvc && cvcPattern (p.cvc.getD "")
  else if p.method == "paypal" then
    strTruthy p.paypalEmail && emailPattern (p.paypalEmail.getD "")
  else false

/-- `simulateBookHotel`: reject on invalid payment shape; otherwise
synthesize a `Trip` with `status = 'upcoming'` and
`totalPrice = hotel.pricePerNight` (the source comment is explicit that
this is the whole-stay total and is not multiplied by night count).
`now` and `rndTag` stand for the `Date.now()` / `Math.random()` draws used
in the generated id. -/
def simulateBookHotel (hotel : Hotel) (checkInDate checkOutDate : Int)
    (numberOfGuests : Int) (paymentDetails : PaymentDetails)
    (now : Int) (rndTag : String) : Except String Trip :=
  if paymentValid paymentDetails = false then
    .error "Simulated payment validation failed. Please check payment details."
  else
    let totalPrice := hotel.pricePerNight
    .ok
      { id := "trip-amadeus-server-" ++ toString now ++ "-" ++ rndTag
        hotel := hotel
        checkInDate := checkInDate
        checkOutDate := checkOutDate
        numberOfGuests := numberOfGuests
        totalPrice := totalPrice
        status := "upcoming" }

/-! ## Trip store (`getTrips` / `addTrip`, booking.ts lines 556–607) -/

/-- `getTrips`: parse every stored row (absent dates default to
`new Date()`, i.e. `now`), then keep only rows with a hotel, a truthy hotel
id, and `checkOutDate > checkInDate`. The source maps and then filters; the
two passes are fused into one `filterMap`. (Dates that parse to `NaN` are
also dropped by the source; an unparsable stored date is not representable
in this model and no claim depends on it.) -/
def getTrips (store : List StoredTrip) (now : Int) : List Trip :=
  store.filterMap fun r =>
    let ci := r.checkInDate.getD now
    let co := r.checkOutDate.getD now
    match r.hotel with
    | none => none
    | some h =>
        if h.id ≠ "" ∧ ci < co then
          some ⟨r.id, h, ci, co, r.numberOfGuests, r.totalPrice, r.status⟩
        else none

/-- Serialization of a parsed trip back into a stored row
(`JSON.stringify` of the in-memory object: every field present). -/
def tripToStored (t : Trip) : StoredTrip :=
  ⟨t.id, some t.hotel, some t.checkInDate, some t.checkOutDate,
    t.numberOfGuests, t.totalPrice, t.status⟩

/-- `addTrip`: read the existing trips via `getTrips`; if one of them
already has the new trip's id, return without touching the store; otherwise
write back the parsed list with the new trip appended. -/
def addTrip (store : List StoredTrip) (now : Int) (trip : Trip) : List StoredTrip :=
  let existingTrips := getTrips store now
  if existingTrips.any fun t => t.id == trip.id then store
  else (existingTrips.map tripToStored) ++ [tripToStored trip]

/-! ## OfferNormalizer (`transformAmadeusHotelOffer`, booking.ts lines 24–67) -/

/-- Address block of a raw provider offer (duck-typed JSON). -/
structure AmadeusAddress where
  lines : Option (List String)
  postalCode : Option String
  cityName : Option String
  countryCode : Option String
deriving DecidableEq

/-- A `{ text }` description block. -/
structure AmadeusDescription where
  text : Option String
deriving DecidableEq

/-- A media entry (`{ uri }`). -/
structure AmadeusMedia where
  uri : Option String
deriving DecidableEq

/-- The hotel part of a raw provider offer: exactly the fields the
normalizer and the validity filter read. -/
structure AmadeusHotelData where
  hotelId : Option String
  name : Option String
  rating : Option String
  latitude : Option ℚ
  longitude : Option ℚ
  address : Option AmadeusAddress
  amenities : Option (List String)
  description : Option AmadeusDescription
  media : Option (List AmadeusMedia)
deriving DecidableEq

/-- The room part of a nested offer (`room.description.text`). -/
structure AmadeusRoom where
  description : Option AmadeusDescription
deriving DecidableEq

/-- The price block of a nested offer. -/
structure AmadeusPrice where
  currency : Option String
  total : Option String
deriving DecidableEq

/-- One nested offer of a raw hotel offer. -/
structure AmadeusOfferDetails where
  price : Option AmadeusPrice
  room : Option AmadeusRoom
deriving DecidableEq

/-- A raw hotel offer from the V2 availability response. -/
structure AmadeusHotelOffer where
  hotel : Option AmadeusHotelData
  available : Option Bool
  offers : Option (List AmadeusOfferDetails)
deriving DecidableEq

/-- The `ratingValue` step of the normalizer:
`hotelData.rating ? parseInt(hotelData.rating, 10) : 0` (a missing or empty
rating string is falsy and yields `0`; `none` models `NaN`). -/
def ratingValueOf (rating : Option String) : Option Int :=
  match rating with
  | none => some 0
  | some r => if r = "" then some 0 else jsParseInt r

/-- The synthetic fallback rating
`parseFloat((Math.random() * 1.5 + 3.0).toFixed(1))` for one draw
`q = Math.random() ∈ [0, 1)`: the raw value `q * 1.5 + 3.0` rounded to one
decimal place. -/
def fallbackRating (q : ℚ) : ℚ :=
  ((round ((q * (3 / 2) + 3) * 10) : ℤ) : ℚ) / 10

/-- The normalized rating: the parsed integer star rating when it lies in
`[1, 5]`, the synthetic fallback otherwise (`NaN`, `< 1` or `> 5`). -/
def normalizedRating (rating : Option String) (q : ℚ) : ℚ :=
  match ratingValueOf rating with
  | none => fallbackRating q
  | some v => if v < 1 ∨ 5 < v then fallbackRating q else (v : ℚ)

/-- `transformAmadeusHotelOffer`: normalize one raw offer into a `Hotel`.
`q` is the `Math.random()` draw used by the rating fallback and `rndTag`
the `Math.random()`-derived text used for the generated id / image seed.
Accessing the fields of an absent `offer.hotel` would throw in the source,
so that case yields `none`; it is unreachable for offers that passed
`searchHotels`' validity filter, which requires a truthy `offer.hotel`.
An unparsable price `total` (`NaN` in the source) is modelled as `0`; no
verified claim depends on unparsable price strings. -/
def transformAmadeusHotelOffer (offer : AmadeusHotelOffer) (q : ℚ) (rndTag : String) :
    Option Hotel :=
  match offer.hotel with
  | none => none
  | some hotelData =>
      let offerDetails := (offer.offers.getD []).head?
      let offerPrice := offerDetails.bind fun od => od.price
      let imageUrl :=
        jsOrStr ((hotelData.media.getD []).head?.bind fun m => m.uri)
          ("https://picsum.photos/seed/" ++ jsOrStr hotelData.hotelId rndTag ++ "/400/300")
      let addressParts : List (Option String) :=
        [hotelData.address.bind fun a => (a.lines.getD []).head?,
         hotelData.address.bind fun a => a.cityName,
         hotelData.address.bind fun a => a.postalCode,
         hotelData.address.bind fun a => a.countryCode]
      let address :=
        String.intercalate ", " (((addressParts.filterMap id).filter fun s => s ≠ ""))
      let rating := normalizedRating hotelData.rating q
      let amenities := (hotelData.amenities.getD []).take 6
      let roomDescription :=
        ((offerDetails.bind fun od => od.room).bind fun r => r.description).bind
          fun d => d.text
      let hotelDescription := hotelData.description.bind fun d => d.text
      let description :=
        jsOrStr roomDescription (jsOrStr hotelDescription
          ("Eco-friendly stay at " ++ jsOrStr hotelData.name "this hotel" ++ " in " ++
            jsOrStr (hotelData.address.bind fun a => a.cityName) "the city" ++
            ". Check availability for details."))
      some
        { id := jsOrStr hotelData.hotelId ("unknown-" ++ rndTag)
          name := jsOrStr hotelData.name "Hotel Name Unavailable"
          address := if address = "" then "Address Unavailable" else address
          city := jsOrStr (hotelData.address.bind fun a => a.cityName) "City Unavailable"
          pricePerNight :=
            match offerPrice.bind fun p => p.total with
            | none => 0
            | some t => if t = "" then 0 else (jsParseFloat t).getD 0
          imageUrl := imageUrl
          rating := rating
          amenities := amenities
          latitude := hotelData.latitude
          longitude := hotelData.longitude
          description := description
          currency := jsOrStr (offerPrice.bind fun p => p.currency) "USD" }

/-! ## SearchOrchestrator (`searchHotels`, booking.ts lines 299–489) -/

/-- The validity filter applied to each raw offer (line 430):
`offer.hotel && offer.hotel.hotelId && offer.hotel.name && offer.available
&& offer.offers?.[0]?.price?.total`. -/
def isValidOffer (offer : AmadeusHotelOffer) : Bool :=
  match offer.hotel with
  | none => false
  | some h =>
      strTruthy h.hotelId && strTruthy h.name && boolTruthy offer.available &&
        strTruthy (((offer.offers.getD []).head?.bind fun od => od.price).bind
          fun p => p.total)

/-- Outcome of the availability GET as observed by the code. -/
inductive SearchResponse
  | netError
  | httpError (status : Nat) (body : String)
  | ok (data : List AmadeusHotelOffer)

/-- Structured content of the errors `searchHotels` throws, one constructor
per `throw` site (the catch block's message refinement, lines 453–488, only
rewrites text and never converts an error into a result list). -/
inductive SearchFailure
  | missingDates
  | missingCity
  | prepareFailed (e : TokenError)
  | locationNotFound (city : String)
  | invalidDateRange
  | invalidGuests
  | configError
  | tokenFailed (e : TokenError)
  | network
  | apiError (status : Nat) (body : String)
  | allFiltered (cityCode : String)
  | noHotelsFound
deriving DecidableEq

/-- `HotelSearchCriteria` (duck-typed as the validation code treats it:
every string field may be absent or empty). -/
structure HotelSearchCriteria where
  city : Option String
  cityCode : Option String
  checkInDate : Option Int
  checkOutDate : Option Int
  numberOfGuests : Int

/-- Environment of one `searchHotels` call: credential configuration, the
provider's responses, and the `Math.random()` draws consumed by the
normalizer for the i-th transformed offer. -/
structure SearchEnv where
  tokenEnv : TokenEnv
  locationsResp : LocationsResponse
  searchResp : SearchResponse
  ratingRands : Nat → ℚ
  idTags : Nat → String

/-- `Promise.all(limitedResults.map(transformAmadeusHotelOffer))`, with the
i-th offer consuming the i-th random draws. Offers without a hotel object
(unreachable after the validity filter) are skipped. -/
def transformAll (offers : List AmadeusHotelOffer) (env : SearchEnv) : List Hotel :=
  offers.enum.filterMap fun p =>
    transformAmadeusHotelOffer p.2 (env.ratingRands p.1) (env.idTags p.1)

/-- The tail of `searchHotels` once a location code is settled (lines
333–451): date-order and guest validation, redundant credential check,
token acquisition, availability GET, filtering, capping at 20, and
normalization. `calls` counts the network requests already issued while
resolving the location code. -/
def searchHotelsWithCode (criteria : HotelSearchCriteria) (cityCode : String)
    (env : SearchEnv) (now : Int) (cachedToken : Option CachedToken) (calls : Nat) :
    Except SearchFailure (List Hotel) × Option CachedToken × Nat :=
  if criteria.checkOutDate.getD 0 ≤ criteria.checkInDate.getD 0 then
    (.error .invalidDateRange, cachedToken, calls)
  else if criteria.numberOfGuests < 1 then
    (.error .invalidGuests, cachedToken, calls)
  else if !strTruthy env.tokenEnv.apiKey || !strTruthy env.tokenEnv.apiSecret then
    (.error .configError, cachedToken, calls)
  else
    match getAmadeusAccessToken env.tokenEnv now cachedToken with
    | (.error e, st, n) => (.error (.tokenFailed e), st, calls + n)
    | (.ok _, st, n) =>
        match env.searchResp with
        | .netError => (.error .network, st, calls + n + 1)
        | .httpError status body => (.error (.apiError status body), st, calls + n + 1)
        | .ok data =>
            if data.length > 0 then
              let validOffers := data.filter isValidOffer
              if validOffers.length > 0 then
                let limitedResults := validOffers.take 20
                (.ok (transformAll limitedResults env), st, calls + n + 1)
              else (.error (.allFiltered cityCode), st, calls + n + 1)
            else (.error .noHotelsFound, st, calls + n + 1)

/-- `searchHotels`: date-presence check, then location-code resolution
(which issues token and city-lookup network requests when only a city name
was supplied), then the rest of the pipeline. Returns
(result, final token cache, number of network requests issued). -/
def searchHotels (criteria : HotelSearchCriteria) (env : SearchEnv) (now : Int)
    (cachedToken : Option CachedToken) :
    Except SearchFailure (List Hotel) × Option CachedToken × Nat :=
  if criteria.checkInDate.isNone || criteria.checkOutDate.isNone then
    (.error .missingDates, cachedToken, 0)
  else if strTruthy criteria.cityCode = false then
    if strTruthy criteria.city = false then (.error .missingCity, cachedToken, 0)
    else
      match getAmadeusAccessToken env.tokenEnv now cachedToken with
      | (.error e, st, n) => (.error (.prepareFailed e), st, n)
      | (.ok _, st, n) =>
          match getCityCode (criteria.city.getD "") env.locationsResp with
          | none => (.error (.locationNotFound (criteria.city.getD "")), st, n + 1)
          | some code => searchHotelsWithCode criteria code env now st (n + 1)
  else searchHotelsWithCode criteria (criteria.cityCode.getD "") env now cachedToken 0

/-! ## Theorems -/

/-- Claim C3, counterexample: for the single candidate
`{name: "Paris", code: "XYZ", kind: AIRPORT}` and query `"Paris"`, the
claimed policy (step 1: exact case-insensitive name match with a non-empty
code, any kind) would return `"XYZ"`, but `getCityCode` returns `null`:
non-CITY candidates are never consulted. -/
theorem getCityCode_airport_exact_cex :
    getCityCode "Paris"
        (.ok [{ subType := "AIRPORT", name := some "Paris", iataCode := some "XYZ" }]) =
      none ∧
    resolveSpecPolicy "Paris"
        [{ subType := "AIRPORT", name := some "Paris", iataCode := some "XYZ" }] =
      some "XYZ" :=
  ⟨rfl, rfl⟩

/-- Claim C3 (corrected): `getCityCode` picks the code by this ordered
policy, first match wins: (1) exact case-insensitive name match of kind
CITY with a non-empty code; (2) first candidate of kind CITY with a
non-empty code; (3) otherwise `null` — candidates of any other kind are
never used. In particular, for candidates
`[{name: "Paris", code: "XYZ", kind: AIRPORT},
{name: "Paris", code: "PAR", kind: CITY}]` and query `"Paris"`, it returns
`"PAR"`. -/
theorem getCityCode_follows_city_only_policy :
    (∀ (cityName : String) (data : List AmadeusLocation),
      getCityCode cityName (.ok data) = cityOnlyPolicy cityName data) ∧
    getCityCode "Paris"
        (.ok [{ subType := "AIRPORT", name := some "Paris", iataCode := some "XYZ" },
              { subType := "CITY", name := some "Paris", iataCode := some "PAR" }]) =
      some "PAR" := by
  constructor
  · intro cityName data
    cases data with
    | nil => rfl
    | cons a as =>
        simp only [getCityCode, cityOnlyPolicy]
        rw [if_pos (by simp)]
  · rfl

/-- Claim C7 (confirmed): a transport failure or a non-2xx provider
response makes `getCityCode` return `null`; the function's result type is
the total `Option String`, so no error is ever propagated to the caller. -/
theorem getCityCode_absorbs_failures :
    ∀ (cityName body : String) (status : Nat),
      getCityCode cityName .netError = none ∧
      getCityCode cityName (.httpError status body) = none :=
  fun _ _ _ => ⟨rfl, rfl⟩

/-- Claim C5 (confirmed): with a cached token whose expiry lies strictly in
the future, `getAmadeusAccessToken` returns the cached value, issues zero
network requests, and leaves the cache unchanged. -/
theorem getToken_cache_hit (env : TokenEnv) (now : Int) (c : CachedToken)
    (h : now < c.expiry) :
    getAmadeusAccessToken env now (some c) = (.ok c.token, some c, 0) := by
  simp [getAmadeusAccessToken, h]

/-- Claim C5, witness: concrete cache hit at `now = 0`, `expiry = 100`. -/
theorem getToken_cache_hit_witness :
    getAmadeusAccessToken ⟨some "key", some "secret", .netError⟩ 0
        (some ⟨"tok", 100⟩) =
      (.ok "tok", some ⟨"tok", 100⟩, 0) :=
  getToken_cache_hit ⟨some "key", some "secret", .netError⟩ 0 ⟨"tok", 100⟩ (by decide)

/-- Claim C6 (confirmed): with an absent or expired cached token,
configured credentials, and a provider that grants `tok` with lifetime
`expires_in` seconds, `getAmadeusAccessToken` issues exactly one token
request and stores `{tok, expiry = now + expires_in·1000 − 60000}`
(i.e. `now + (expires_in − 60s)` in milliseconds) in the cache. -/
theorem getToken_refresh (env : TokenEnv) (now : Int) (cached : Option CachedToken)
    (hexp : ∀ c, cached = some c → c.expiry ≤ now)
    (hkey : strTruthy env.apiKey = true) (hsec : strTruthy env.apiSecret = true)
    (tok : String) (lifetime : Int) (hresp : env.tokenResp = .ok tok lifetime) :
    getAmadeusAccessToken env now cached =
      (.ok tok, some ⟨tok, now + lifetime * 1000 - 60000⟩, 1) := by
  have hreq : requestAmadeusToken env now cached =
      (.ok tok, some ⟨tok, now + lifetime * 1000 - 60000⟩, 1) := by
    unfold requestAmadeusToken
    rw [hkey, hsec, hresp]
    simp
  cases cached with
  | none => simpa [getAmadeusAccessToken] using hreq
  | some c =>
      have hc : ¬ now < c.expiry := not_lt.mpr (hexp c rfl)
      simpa [getAmadeusAccessToken, hc] using hreq

/-- Claim C6, witness: refresh from an empty cache at `now = 0` with
`expires_in = 1799` caches expiry `1799000 − 60000 = 1739000`. -/
theorem getToken_refresh_witness :
    getAmadeusAccessToken ⟨some "key", some "secret", .ok "newtok" 1799⟩ 0 none =
      (.ok "newtok", some ⟨"newtok", 1739000⟩, 1) := by
  have h := getToken_refresh ⟨some "key", some "secret", .ok "newtok" 1799⟩ 0 none
    (fun c hc => by cases hc) rfl rfl "newtok" 1799 rfl
  simpa using h

/-- Claim C2 (confirmed): for every hotel, dates, guest count and payment
details passing the shape validation, `simulateBookHotel` returns a `Trip`
with `status = 'upcoming'` whose `totalPrice` equals the hotel's normalized
price exactly — for all date pairs, so the price is never multiplied by the
night count. -/
theorem simulateBookHotel_price_invariant (hotel : Hotel)
    (checkInDate checkOutDate numberOfGuests now : Int) (p : PaymentDetails)
    (rndTag : String) (hp : paymentValid p = true) :
    ∃ t, simulateBookHotel hotel checkInDate checkOutDate numberOfGuests p now rndTag =
        .ok t ∧
      t.totalPrice = hotel.pricePerNight ∧ t.status = "upcoming" := by
  unfold simulateBookHotel
  rw [if_neg (by simp [hp])]
  exact ⟨_, rfl, rfl, rfl⟩

/-- A well-shaped credit-card payment. -/
def validCardPayment : PaymentDetails :=
  { method := "creditCard", cardNumber := some "1234567890123456",
    expiryDate := some "12/30", cvc := some "123", paypalEmail := none }

/-- A concrete normalized hotel used by the witnesses. -/
def demoHotel : Hotel :=
  { id := "HLPAR266", name := "Eco Green Paradise", address := "123 Nature Lane, Paris",
    city := "Paris", pricePerNight := 300, imageUrl := "img", rating := 4,
    amenities := [], latitude := none, longitude := none,
    description := "stay", currency := "USD" }

/-- Claim C2, witness: a concrete one-night booking of `demoHotel` with a
valid card keeps `totalPrice = 300`. -/
theorem simulateBookHotel_price_invariant_witness :
    paymentValid validCardPayment = true ∧
    ∃ t, simulateBookHotel demoHotel 0 86400000 2 validCardPayment 0 "r" = .ok t ∧
      t.totalPrice = demoHotel.pricePerNight ∧ t.status = "upcoming" :=
  ⟨by decide,
    simulateBookHotel_price_invariant demoHotel 0 86400000 2 0 validCardPayment "r"
      (by decide)⟩

/-- A stored row whose id is `"t1"` but which fails `getTrips`' validity
filter (its check-out does not lie after its check-in). -/
def staleStoredTrip : StoredTrip :=
  { id := "t1", hotel := some demoHotel, checkInDate := some 0, checkOutDate := some 0,
    numberOfGuests := 2, totalPrice := 300, status := "upcoming" }

/-- A valid trip carrying the same id `"t1"`. -/
def replacementTrip : Trip :=
  { id := "t1", hotel := demoHotel, checkInDate := 0, checkOutDate := 86400000,
    numberOfGuests := 2, totalPrice := 300, status := "upcoming" }

/-- Claim C10, counterexample: the store `[staleStoredTrip]` already
contains a trip with id `"t1"`, yet `addTrip` of another trip with id
`"t1"` changes the stored collection — the duplicate check only sees the
trips that pass `getTrips`' validity filter, and the write rewrites the
store without the stale row. -/
theorem addTrip_raw_duplicate_cex :
    ([staleStoredTrip].any fun r => r.id == "t1") = true ∧
    addTrip [staleStoredTrip] 0 replacementTrip ≠ [staleStoredTrip] := by
  constructor
  · rfl
  · decide

/-- `tripToStored` keeps the trip id. -/
theorem tripToStored_id (t : Trip) : (tripToStored t).id = t.id := rfl

/-- Claim C10 (corrected): duplicate prevention works on the valid view of
the store: if the new trip's id already occurs among the trips `getTrips`
returns, `addTrip` leaves the stored collection unchanged; otherwise (and
provided the valid view's ids were distinct) the rewritten store again has
pairwise-distinct ids. Raw rows that fail `getTrips`' validity filter are
not consulted for duplicate detection. -/
theorem addTrip_dedup_on_valid_view (store : List StoredTrip) (now : Int) (trip : Trip) :
    (((getTrips store now).any fun t => t.id == trip.id) = true →
      addTrip store now trip = store) ∧
    (((getTrips store now).any fun t => t.id == trip.id) = false →
      ((getTrips store now).map Trip.id).Nodup →
      ((addTrip store now trip).map StoredTrip.id).Nodup) := by
  constructor
  · intro h
    simp [addTrip, h]
  · intro h hnd
    have hids : (addTrip store now trip).map StoredTrip.id =
        (getTrips store now).map Trip.id ++ [trip.id] := by
      simp [addTrip, h, List.map_map, Function.comp, tripToStored_id]
    rw [hids]
    refine List.Nodup.append hnd (List.nodup_singleton _) ?_
    intro x hx hx2
    have hxid : x = trip.id := by simpa using hx2
    subst hxid
    rcases List.mem_map.mp hx with ⟨t, ht, hid⟩
    have hany : ((getTrips store now).any fun t => t.id == trip.id) = true :=
      List.any_eq_true.mpr ⟨t, ht, by simp [hid]⟩
    rw [hany] at h
    cases h

/-- A valid trip with the fresh id `"t2"`. -/
def freshTrip : Trip :=
  { id := "t2", hotel := demoHotel, checkInDate := 0, checkOutDate := 86400000,
    numberOfGuests := 2, totalPrice := 300, status := "upcoming" }

/-- Claim C10, witness: adding `replacementTrip` on a store whose valid
view already holds id `"t1"` leaves the store unchanged, and adding the
fresh id `"t2"` keeps the stored ids pairwise distinct. -/
theorem addTrip_dedup_on_valid_view_witness :
    (addTrip [tripToStored replacementTrip] 0 replacementTrip =
      [tripToStored replacementTrip]) ∧
    ((addTrip [tripToStored replacementTrip] 0 freshTrip).map StoredTrip.id).Nodup :=
  ⟨(addTrip_dedup_on_valid_view [tripToStored replacementTrip] 0 replacementTrip).1
      (by decide),
    (addTrip_dedup_on_valid_view [tripToStored replacementTrip] 0 freshTrip).2
      (by decide) (by decide)⟩

/-- For a `Math.random()` draw `q ∈ [0, 1)` the synthetic fallback rating
lies within `[3.0, 4.5]`. -/
theorem fallbackRating_mem (q : ℚ) (h0 : 0 ≤ q) (h1 : q < 1) :
    3 ≤ fallbackRating q ∧ fallbackRating q ≤ 9 / 2 := by
  have hr0 : (30 : ℤ) ≤ round ((q * (3 / 2) + 3) * 10) := by
    rw [round_eq]
    refine Int.le_floor.mpr ?_
    push_cast
    linarith
  have hr1 : round ((q * (3 / 2) + 3) * 10) ≤ 45 := by
    rw [round_eq]
    have h46 : ((q * (3 / 2) + 3) * 10 + 1 / 2 : ℚ) < ((46 : ℤ) : ℚ) := by
      push_cast
      linarith
    have := Int.floor_lt.mpr h46
    omega
  have hc0 : (30 : ℚ) ≤ ((round ((q * (3 / 2) + 3) * 10) : ℤ) : ℚ) := by
    exact_mod_cast hr0
  have hc1 : ((round ((q * (3 / 2) + 3) * 10) : ℤ) : ℚ) ≤ 45 := by
    exact_mod_cast hr1
  unfold fallbackRating
  constructor
  · rw [le_div_iff₀ (by norm_num : (0 : ℚ) < 10)]
    linarith
  · rw [div_le_iff₀ (by norm_num : (0 : ℚ) < 10)]
    linarith

/-- Claim C8 (confirmed): for any raw offer with a hotel object and any
draw `q ∈ [0, 1)`, the normalized hotel's rating equals
`normalizedRating`; when the provider's star rating is unparsable or
parses outside `[1, 5]` the rating is the synthetic fallback, which lies
within `[3.0, 4.5]` (hence never zero or blank); a rating parsing to an
integer in `[1, 5]` is kept as-is. -/
theorem transform_rating_policy (offer : AmadeusHotelOffer) (hd : AmadeusHotelData)
    (hh : offer.hotel = some hd) (q : ℚ) (rndTag : String)
    (h0 : 0 ≤ q) (h1 : q < 1) :
    ∃ h, transformAmadeusHotelOffer offer q rndTag = some h ∧
      h.rating = normalizedRating hd.rating q ∧
      ((ratingValueOf hd.rating = none ∨
          ∃ v, ratingValueOf hd.rating = some v ∧ (v < 1 ∨ 5 < v)) →
        3 ≤ h.rating ∧ h.rating ≤ 9 / 2) ∧
      (∀ v : ℤ, ratingValueOf hd.rating = some v → 1 ≤ v → v ≤ 5 →
        h.rating = (v : ℚ)) := by
  obtain ⟨oh, oav, oo⟩ := offer
  have hh2 : oh = some hd := hh
  subst hh2
  refine ⟨_, rfl, rfl, ?_, ?_⟩
  · intro hbad
    have hrat : normalizedRating hd.rating q = fallbackRating q := by
      rcases hbad with hnone | ⟨v, hv, hout⟩
      · unfold normalizedRating
        rw [hnone]
      · unfold normalizedRating
        rw [hv]
        dsimp only
        rw [if_pos hout]
    show 3 ≤ normalizedRating hd.rating q ∧ normalizedRating hd.rating q ≤ 9 / 2
    rw [hrat]
    exact fallbackRating_mem q h0 h1
  · intro v hv hv1 hv5
    have hrat : normalizedRating hd.rating q = (v : ℚ) := by
      unfold normalizedRating
      rw [hv]
      dsimp only
      rw [if_neg (by omega)]
    show normalizedRating hd.rating q = (v : ℚ)
    exact hrat

/-- Hotel data whose star rating is the unparsable string `"invalid"`. -/
def badRatingHotelData : AmadeusHotelData :=
  { hotelId := some "HLX2", name := some "Hotel", rating := some "invalid",
    latitude := none, longitude := none, address := none, amenities := none,
    description := none, media := none }

/-- An offer wrapping `badRatingHotelData`. -/
def badRatingOffer : AmadeusHotelOffer :=
  { hotel := some badRatingHotelData, available := some true,
    offers := some [{ price := some { currency := some "USD", total := some "300.00" },
                      room := none }] }

/-- Claim C8, witness: the unparsable rating `"invalid"` with draw
`q = 1/2` yields a normalized hotel whose rating is within `[3.0, 4.5]`. -/
theorem transform_rating_policy_witness :
    ∃ h, transformAmadeusHotelOffer badRatingOffer (1 / 2) "r" = some h ∧
      h.rating = normalizedRating badRatingHotelData.rating (1 / 2) ∧
      ((ratingValueOf badRatingHotelData.rating = none ∨
          ∃ v, ratingValueOf badRatingHotelData.rating = some v ∧ (v < 1 ∨ 5 < v)) →
        3 ≤ h.rating ∧ h.rating ≤ 9 / 2) ∧
      (∀ v : ℤ, ratingValueOf badRatingHotelData.rating = some v → 1 ≤ v → v ≤ 5 →
        h.rating = (v : ℚ)) :=
  transform_rating_policy badRatingOffer badRatingHotelData rfl (1 / 2) "r"
    (by norm_num) (by norm_num)

/-- Every successful `searchHotelsWithCode` result comes from a non-empty
filtered offer list of a 2xx availability response, capped at 20 and
normalized. -/
theorem searchHotelsWithCode_ok_shape (criteria : HotelSearchCriteria)
    (cityCode : String) (env : SearchEnv) (now : Int) (st : Option CachedToken)
    (calls : Nat) (hs : List Hotel)
    (h : (searchHotelsWithCode criteria cityCode env now st calls).1 = .ok hs) :
    ∃ data, env.searchResp = .ok data ∧
      hs = transformAll ((data.filter isValidOffer).take 20) env ∧
      data.filter isValidOffer ≠ [] := by
  unfold searchHotelsWithCode at h
  split at h
  · simp at h
  split at h
  · simp at h
  split at h
  · simp at h
  split at h
  · simp at h
  · split at h
    · simp at h
    · simp at h
    · next data heq =>
        split at h
        · dsimp only at h
          split at h
          · next hlen =>
              refine ⟨data, heq, ?_, ?_⟩
              · simpa using h.symm
              · exact List.length_pos.mp hlen
          · simp at h
        · simp at h

/-- Every successful `searchHotels` result has the same shape. -/
theorem searchHotels_ok_shape (criteria : HotelSearchCriteria) (env : SearchEnv)
    (now : Int) (st : Option CachedToken) (hs : List Hotel)
    (h : (searchHotels criteria env now st).1 = .ok hs) :
    ∃ data, env.searchResp = .ok data ∧
      hs = transformAll ((data.filter isValidOffer).take 20) env ∧
      data.filter isValidOffer ≠ [] := by
  unfold searchHotels at h
  split at h
  · simp at h
  split at h
  · split at h
    · simp at h
    · split at h
      · simp at h
      · split at h
        · simp at h
        · exact searchHotelsWithCode_ok_shape _ _ _ _ _ _ _ h
  · exact searchHotelsWithCode_ok_shape _ _ _ _ _ _ _ h

/-- Claim C9 (confirmed): a successful search returns at most 20 hotels —
`searchHotels` slices the valid offers to the first 20 before
normalization, a cap the spec nowhere states. -/
theorem searchHotels_caps_at_20 (criteria : HotelSearchCriteria) (env : SearchEnv)
    (now : Int) (st : Option CachedToken) (hs : List Hotel)
    (h : (searchHotels criteria env now st).1 = .ok hs) : hs.length ≤ 20 := by
  obtain ⟨data, -, rfl, -⟩ := searchHotels_ok_shape criteria env now st hs h
  calc (transformAll ((data.filter isValidOffer).take 20) env).length
      ≤ ((data.filter isValidOffer).take 20).enum.length :=
        List.length_filterMap_le _ _
    _ = ((data.filter isValidOffer).take 20).length := List.enum_length
    _ ≤ 20 := List.length_take_le _ _

/-- A raw offer satisfying the validity filter. -/
def goodOffer : AmadeusHotelOffer :=
  { hotel := some { hotelId := some "HLPAR266", name := some "Eco Hotel",
                    rating := some "4", latitude := none, longitude := none,
                    address := none, amenities := none, description := none,
                    media := none },
    available := some true,
    offers := some [{ price := some { currency := some "USD", total := some "300.00" },
                      room := none }] }

/-- Search criteria carrying an explicit location code and a one-night
stay. -/
def goodCriteria : HotelSearchCriteria :=
  { city := some "Berlin", cityCode := some "BER", checkInDate := some 0,
    checkOutDate := some 86400000, numberOfGuests := 2 }

/-- A search environment with configured credentials, a provider that
grants a token, and the given availability response. -/
def envWith (resp : SearchResponse) : SearchEnv :=
  { tokenEnv := { apiKey := some "key", apiSecret := some "secret",
                  tokenResp := .ok "tok" 1799 },
    locationsResp := .ok [], searchResp := resp,
    ratingRands := fun _ => 1 / 2, idTags := fun _ => "r" }

/-- The result list of a run whose availability response holds 21 valid
offers. -/
def hotels21 : List Hotel :=
  ((searchHotels goodCriteria (envWith (.ok (List.replicate 21 goodOffer))) 0 none).1).toOption.getD []

/-- Claim C9, witness: with 21 valid raw offers the search succeeds and
returns at most 20 hotels. -/
theorem searchHotels_caps_at_20_witness :
    (searchHotels goodCriteria (envWith (.ok (List.replicate 21 goodOffer))) 0 none).1 =
      .ok hotels21 ∧
    hotels21.length ≤ 20 :=
  ⟨rfl,
    searchHotels_caps_at_20 goodCriteria (envWith (.ok (List.replicate 21 goodOffer)))
      0 none hotels21 rfl⟩

/-- A raw offer whose hotel name is missing: the validity filter drops
it. -/
def invalidOffer : AmadeusHotelOffer :=
  { hotel := some { hotelId := some "HLX1", name := none, rating := some "4",
                    latitude := none, longitude := none, address := none,
                    amenities := none, description := none, media := none },
    available := some true,
    offers := some [{ price := some { currency := some "USD", total := some "300.00" },
                      room := none }] }

/-- Claim C1, counterexample: with a 2xx availability response whose only
raw offer is removed by the validity filter (missing hotel name),
`searchHotels` does not return an empty hotel list — it fails with the
"none met the availability or data requirements" error. -/
theorem searchHotels_all_filtered_cex :
    (searchHotels goodCriteria (envWith (.ok [invalidOffer])) 0 none).1 =
      .error (.allFiltered "BER") ∧
    (searchHotels goodCriteria (envWith (.ok [invalidOffer])) 0 none).1 ≠
      .ok [] :=
  ⟨rfl, fun hcontra =>
    Except.noConfusion
      (show (Except.error (SearchFailure.allFiltered "BER") :
          Except SearchFailure (List Hotel)) = Except.ok [] from hcontra)⟩

/-- An offer passing the validity filter normalizes to `some` hotel. -/
theorem transform_isSome_of_valid (o : AmadeusHotelOffer) (q : ℚ) (tag : String)
    (hv : isValidOffer o = true) : (transformAmadeusHotelOffer o q tag).isSome := by
  cases ho : o.hotel with
  | none => simp [isValidOffer, ho] at hv
  | some hd => simp [transformAmadeusHotelOffer, ho]

/-- Normalizing a non-empty list of valid offers yields a non-empty hotel
list. -/
theorem transformAll_ne_nil (env : SearchEnv) (l : List AmadeusHotelOffer)
    (hl : l ≠ []) (hv : ∀ o ∈ l, isValidOffer o = true) :
    transformAll l env ≠ [] := by
  cases l with
  | nil => exact absurd rfl hl
  | cons a rest =>
      have ha := transform_isSome_of_valid a (env.ratingRands 0) (env.idTags 0)
        (hv a (List.mem_cons_self a rest))
      obtain ⟨b, hb⟩ := Option.isSome_iff_exists.mp ha
      unfold transformAll
      rw [List.enum_cons]
      simp [List.filterMap_cons, hb]

/-- Claim C1 (corrected): when the provider call succeeds but every raw
offer is removed by the validity filter, `searchHotels` reports this as an
error (the "none met the availability or data requirements" message), not
as a zero-results outcome; consequently a successful `searchHotels` never
returns an empty hotel list. -/
theorem searchHotels_never_ok_empty (criteria : HotelSearchCriteria) (env : SearchEnv)
    (now : Int) (st : Option CachedToken) (hs : List Hotel)
    (h : (searchHotels criteria env now st).1 = .ok hs) : hs ≠ [] := by
  obtain ⟨data, -, rfl, hne⟩ := searchHotels_ok_shape criteria env now st hs h
  refine transformAll_ne_nil env _ ?_ ?_
  · intro hemp
    rcases List.take_eq_nil_iff.mp hemp with h20 | hnil
    · cases h20
    · exact hne hnil
  · intro o ho
    exact List.of_mem_filter (List.take_subset _ _ ho)

/-- The result list of a run whose availability response holds one valid
offer. -/
def hotelsOne : List Hotel :=
  ((searchHotels goodCriteria (envWith (.ok [goodOffer])) 0 none).1).toOption.getD []

/-- Claim C1, witness: a concrete successful search returns a non-empty
hotel list. -/
theorem searchHotels_never_ok_empty_witness :
    (searchHotels goodCriteria (envWith (.ok [goodOffer])) 0 none).1 = .ok hotelsOne ∧
    hotelsOne ≠ [] :=
  ⟨rfl,
    searchHotels_never_ok_empty goodCriteria (envWith (.ok [goodOffer])) 0 none
      hotelsOne rfl⟩

/-- Criteria with a city name but no location code, and equal check-in and
check-out dates. -/
def lookupOnlyCriteria : HotelSearchCriteria :=
  { city := some "Paris", cityCode := none, checkInDate := some 0,
    checkOutDate := some 0, numberOfGuests := 2 }

/-- An environment whose city lookup resolves `"Paris"` to `"PAR"`. -/
def parisEnv : SearchEnv :=
  { tokenEnv := { apiKey := some "key", apiSecret := some "secret",
                  tokenResp := .ok "tok" 1799 },
    locationsResp := .ok [{ subType := "CITY", name := some "Paris",
                            iataCode := some "PAR" }],
    searchResp := .ok [], ratingRands := fun _ => 1 / 2, idTags := fun _ => "r" }

/-- Claim C4, counterexample: for criteria violating validation
(`checkIn == checkOut`) but carrying only a city name, `searchHotels`
issues two network requests (token and city lookup) before failing with
the date-range error — the validation failure is not raised before any
network call. -/
theorem searchHotels_validates_after_lookup_cex :
    (searchHotels lookupOnlyCriteria parisEnv 0 none).1 = .error .invalidDateRange ∧
    (searchHotels lookupOnlyCriteria parisEnv 0 none).2.2 = 2 :=
  ⟨rfl, rfl⟩

/-- Once the date-order and guest checks pass, no later branch of
`searchHotelsWithCode` produces one of the four validation errors. -/
theorem searchHotelsWithCode_passes_validation (criteria : HotelSearchCriteria)
    (cityCode : String) (env : SearchEnv) (now : Int) (st : Option CachedToken)
    (calls : Nat)
    (hdate : ¬ criteria.checkOutDate.getD 0 ≤ criteria.checkInDate.getD 0)
    (hg : ¬ criteria.numberOfGuests < 1) :
    (searchHotelsWithCode criteria cityCode env now st calls).1 ≠
        .error .invalidDateRange ∧
    (searchHotelsWithCode criteria cityCode env now st calls).1 ≠
        .error .invalidGuests ∧
    (searchHotelsWithCode criteria cityCode env now st calls).1 ≠
        .error .missingDates ∧
    (searchHotelsWithCode criteria cityCode env now st calls).1 ≠
        .error .missingCity := by
  unfold searchHotelsWithCode
  rw [if_neg hdate, if_neg hg]
  split
  · simp
  · split
    · simp
    · split
      · simp
      · simp
      · dsimp only
        split
        · split
          · simp
          · simp
        · simp

/-- Claim C4 (corrected): missing dates and a missing destination are
rejected with field-specific errors before any network request; a
date-order or guest-count violation is likewise rejected before any
network request whenever an explicit location code is supplied — but when
only a city name is supplied the token and city-lookup requests run before
those two checks (see the counterexample). `checkIn == checkOut` is
rejected, while `checkOut == checkIn + 1 day` passes validation. -/
theorem searchHotels_validation_order (criteria : HotelSearchCriteria)
    (env : SearchEnv) (now : Int) (st : Option CachedToken) :
    ((criteria.checkInDate.isNone || criteria.checkOutDate.isNone) = true →
      searchHotels criteria env now st = (.error .missingDates, st, 0)) ∧
    ((criteria.checkInDate.isNone || criteria.checkOutDate.isNone) = false →
      strTruthy criteria.cityCode = false → strTruthy criteria.city = false →
      searchHotels criteria env now st = (.error .missingCity, st, 0)) ∧
    (∀ ci co, criteria.checkInDate = some ci → criteria.checkOutDate = some co →
      strTruthy criteria.cityCode = true → co ≤ ci →
      searchHotels criteria env now st = (.error .invalidDateRange, st, 0)) ∧
    (∀ ci co, criteria.checkInDate = some ci → criteria.checkOutDate = some co →
      strTruthy criteria.cityCode = true → ci < co → criteria.numberOfGuests < 1 →
      searchHotels criteria env now st = (.error .invalidGuests, st, 0)) ∧
    (∀ ci co, criteria.checkInDate = some ci → criteria.checkOutDate = some co →
      strTruthy criteria.cityCode = true → co = ci + 86400000 →
      1 ≤ criteria.numberOfGuests →
      (searchHotels criteria env now st).1 ≠ .error .invalidDateRange ∧
      (searchHotels criteria env now st).1 ≠ .error .invalidGuests ∧
      (searchHotels criteria env now st).1 ≠ .error .missingDates ∧
      (searchHotels criteria env now st).1 ≠ .error .missingCity) := by
  refine ⟨?_, ?_, ?_, ?_, ?_⟩
  · intro h
    unfold searchHotels
    rw [if_pos h]
  · intro h hcc hcity
    unfold searchHotels
    rw [if_neg (by simp [h]), if_pos hcc, if_pos hcity]
  · intro ci co hci hco hcc hle
    unfold searchHotels
    rw [hci, hco]
    rw [if_neg (by simp), if_neg (by simp [hcc])]
    unfold searchHotelsWithCode
    rw [hci, hco]
    rw [if_pos (by simpa using hle)]
  · intro ci co hci hco hcc hlt hg
    unfold searchHotels
    rw [hci, hco]
    rw [if_neg (by simp), if_neg (by simp [hcc])]
    unfold searchHotelsWithCode
    rw [hci, hco]
    rw [if_neg (by simpa using not_le.mpr hlt), if_pos hg]
  · intro ci co hci hco hcc hday hg
    have hred : searchHotels criteria env now st =
        searchHotelsWithCode criteria (criteria.cityCode.getD "") env now st 0 := by
      unfold searchHotels
      rw [hci, hco]
      rw [if_neg (by simp), if_neg (by simp [hcc])]
    rw [hred]
    refine searchHotelsWithCode_passes_validation criteria _ env now st 0 ?_ ?_
    · rw [hci, hco]
      simp
      omega
    · omega

/-- Criteria with no dates at all. -/
def noDatesCriteria : HotelSearchCriteria :=
  { city := some "Paris", cityCode := some "PAR", checkInDate := none,
    checkOutDate := none, numberOfGuests := 2 }

/-- Criteria with no destination at all. -/
def noCityCriteria : HotelSearchCriteria :=
  { city := none, cityCode := none, checkInDate := some 0,
    checkOutDate := some 86400000, numberOfGuests := 2 }

/-- Criteria with `checkIn == checkOut` and an explicit location code. -/
def equalDatesCriteria : HotelSearchCriteria :=
  { city := some "Paris", cityCode := some "PAR", checkInDate := some 0,
    checkOutDate := some 0, numberOfGuests := 2 }

/-- Criteria with zero guests and an explicit location code. -/
def zeroGuestsCriteria : HotelSearchCriteria :=
  { city := some "Paris", cityCode := some "PAR", checkInDate := some 0,
    checkOutDate := some 86400000, numberOfGuests := 0 }

/-- Criteria for a one-night stay (`checkOut == checkIn + 1 day`) with an
explicit location code. -/
def oneNightCriteria : HotelSearchCriteria :=
  { city := some "Paris", cityCode := some "PAR", checkInDate := some 0,
    checkOutDate := some 86400000, numberOfGuests := 2 }

/-- Claim C4, witness: concrete runs for each validation outcome — missing
dates, missing destination, equal dates, zero guests (all with zero
network requests when the location code is explicit), and the accepted
one-night boundary. -/
theorem searchHotels_validation_order_witness :
    searchHotels noDatesCriteria parisEnv 0 none = (.error .missingDates, none, 0) ∧
    searchHotels noCityCriteria parisEnv 0 none = (.error .missingCity, none, 0) ∧
    searchHotels equalDatesCriteria parisEnv 0 none =
      (.error .invalidDateRange, none, 0) ∧
    searchHotels zeroGuestsCriteria parisEnv 0 none =
      (.error .invalidGuests, none, 0) ∧
    (searchHotels oneNightCriteria parisEnv 0 none).1 ≠ .error .invalidDateRange :=
  ⟨(searchHotels_validation_order noDatesCriteria parisEnv 0 none).1 rfl,
    (searchHotels_validation_order noCityCriteria parisEnv 0 none).2.1 rfl rfl rfl,
    (searchHotels_validation_order equalDatesCriteria parisEnv 0 none).2.2.1 0 0
      rfl rfl rfl le_rfl,
    (searchHotels_validation_order zeroGuestsCriteria parisEnv 0 none).2.2.2.1
      0 86400000 rfl rfl rfl (by norm_num) (by decide),
    ((searchHotels_validation_order oneNightCriteria parisEnv 0 none).2.2.2.2
      0 86400000 rfl rfl rfl rfl (by decide)).1⟩

end EcoTrip
